import Mathlib

/-!
Verification of the conversational turn-taking and termination state machine
of the pgai-agent-tester repository (a synthetic "patient" caller that tests a
clinic's automated phone agent).

The shallow embedding below translates the pure decision logic of
`src/phone_system.py` (closing-phrase detection, `CallSession.should_end_call`,
the `handle_agent_response` webhook flow) and of `src/conversation.py`
(`ConversationManager.generate_reply`, `_is_goal_completed`) together with the
reply guard of `src/llm_client.py` (`generate_patient_reply`).  The external
text-completion capability (the OpenAI call) is the one true external
collaborator and is modelled as an uninterpreted function
`LLM = List Msg → Option String`, where `none` stands for the call raising an
exception and `some c` for the API returning content `c` (Python's
`choice.message.content or ""` is folded into `c`).  Python strings are Lean
`String`s, Python's `needle in haystack` is `containsSubstr`, `str.lower()` is
`strLower`, `str.strip()` is `strTrim`, and the speech-to-text
confidence float is embedded as a rational number (only the exact comparison
`confidence < 0.7` is ever performed on it).
-/

/-- Python's substring test `pat in s` (`str.__contains__`): true iff `pat`
occurs contiguously in `s` (the empty pattern occurs in every string). -/
def containsSubstr (s pat : String) : Bool :=
  s.data.tails.any (fun suffix => pat.data.isPrefixOf suffix)

/-- Python's `str.lower()` on the character list (the texts involved are
ASCII, where `Char.toLower` agrees with Python).  Defined structurally so that
the kernel can evaluate it (core's `String.map` recurses on byte positions and
does not reduce definitionally). -/
def strLower (s : String) : String := String.mk (s.data.map Char.toLower)

/-- Python's `str.strip()`: drop whitespace from both ends.  Structural, for
the same kernel-evaluation reason as `strLower`. -/
def strTrim (s : String) : String :=
  String.mk (((s.data.dropWhile Char.isWhitespace).reverse.dropWhile Char.isWhitespace).reverse)

/-- `a or b` for Python strings where `None` and `""` are falsy: the chained
`x.get(...) or y` idiom of `phone_system.py` / `conversation.py`. -/
def pyOrStr (a : Option String) (b : String) : String :=
  match a with
  | some s => if s = "" then b else s
  | none => b

/-- One `{"role": ..., "content": ...}` chat message (OpenAI format). -/
structure Msg where
  role : String
  content : String
deriving Repr, DecidableEq

/-- The external text-completion capability: `none` models the API call
raising an exception, `some c` a response with content `c`. -/
def LLM : Type := List Msg → Option String

/-! ## Scenario descriptor (`scenarios.yaml` entry as loaded by
`scenario_loader.get_scenario_by_name`) -/

/-- The `patient_context` mapping of a scenario.  Optional keys are `Option`;
`goal` is required (`generate_system_prompt` indexes `context["goal"]`
directly, so a scenario without it crashes the real code before any of the
logic modelled here runs). -/
structure PatientContext where
  goal : String
  name : Option String := none
  claimed_name : Option String := none
  caller_name : Option String := none
  claimed_dob : Option String := none
  dob : Option String := none
  phone : Option String := none
  background : Option String := none
  behavior : Option String := none
deriving Repr, DecidableEq

/-- A scenario descriptor as consumed by `ConversationManager`. -/
structure Scenario where
  name : String
  description : Option String := none
  test_type : Option String := none
  patient_context : PatientContext
deriving Repr, DecidableEq

/-- The two environment variables `generate_system_prompt` reads
(`os.getenv("PATIENT_NAME")`, `os.getenv("PATIENT_PHONE")`). -/
structure Env where
  patient_name : Option String := none
  patient_phone : Option String := none
deriving Repr, DecidableEq

/-! ## `src/conversation.py` — `ConversationManager` -/

/-- The mutable state of a `ConversationManager`: its (immutable) scenario,
`self.conversation_history` and `self.turn_count`. -/
structure ConvMgr where
  scenario : Scenario
  conversation_history : List Msg
  turn_count : Nat
deriving Repr, DecidableEq

/-- `ConversationManager.generate_system_prompt` (conversation.py lines
27-141): the persona system instruction, transcribed verbatim with Python
f-string interpolation replaced by `++`.  `os.getenv` is the `env` argument.
`patient_name` is computed exactly as in the source although the prompt text
never interpolates it (the persona name is hard-coded to Lucas there). -/
def generate_system_prompt (env : Env) (scn : Scenario) : String :=
  let context := scn.patient_context
  let patient_name :=
    pyOrStr env.patient_name
      (pyOrStr context.name (pyOrStr context.claimed_name (pyOrStr context.caller_name "Lucas")))
  let patient_phone := pyOrStr env.patient_phone (pyOrStr context.phone "")
  let prompt :=
    "You are Lucas, a male patient calling Pivot Point Orthopedics. You are an established patient.

IMPORTANT - ROLE-PLAY ONLY (NOT MEDICAL ADVICE):
- This is a simulated call for testing/training. You do NOT provide real medical advice.
- You only confirm or request refills for medications already prescribed and discuss scheduling.
- For any real medical decisions, users must consult a qualified clinician. Do not advise on dosage, interactions, or whether to take/stop medication.

PATIENT PROFILE:
- Name: Lucas (first name only; you are Lucas)
- Date of Birth: February 17, 2026 (02/17/2026) — fake data for testing only.
- Phone: Already on file with the clinic — if they ask to verify (\"Is your number ...?\", \"Is this ...?\"), say \"Yes, that's correct.\"
- You are an established patient.

CRITICAL - ANSWER VERIFICATION QUESTIONS FIRST:
1. If agent asks \"Am I speaking with Lucas?\" or \"What's your name?\" or \"Who is this?\" → Answer: \"Yes, this is Lucas.\"
2. If agent asks for date of birth or DOB → Answer: \"February 17th, 2026.\"
3. DO NOT end the call until your request is actually completed.

CONVERSATION RULES:
1. Speak naturally and directly — NO filler words like \"um\", \"uh\", \"yeah\", \"like\", \"you know\", \"well\", \"let me see\".
2. Keep responses brief and clear (1-2 sentences). Answer questions directly without hesitation markers.
3. If agent asks to verify phone number, respond: \"Yes, that's correct.\" Nothing more.
4. If agent asks for date of birth, say: \"February 17th, 2026\" or \"02/17/2026\".
5. Stay in character as Lucas throughout the call.
6. DO NOT correct the agent if they call you Lucas — that IS your name.

Goal: " ++ context.goal ++ "

Key information to provide when asked:
"
  let prompt := prompt ++ "- Name: Lucas\n"
  let prompt := prompt ++
    "- Date of birth: February 17, 2026 (02/17/2026) — say \"February 17th, 2026\" or \"02/17/2026\" when asked.\n"
  let prompt := prompt ++
    (match context.claimed_name with
     | some v => "- When asked your name, say: " ++ v ++ "\n"
     | none => "")
  let prompt := prompt ++
    (match context.claimed_dob with
     | some v => "- When asked DOB, say: " ++ v ++ "\n"
     | none => "")
  let prompt := prompt ++
    (match context.caller_name with
     | some v => "- (You are really " ++ v ++ " but may claim otherwise per behavior.)\n"
     | none => "")
  let prompt := prompt ++
    (if patient_phone ≠ "" then
      "- Phone: already on file — if they ask to verify, say yes that's correct.\n"
     else "")
  let prompt := prompt ++
    (match context.background with
     | some v => "\nContext:\n" ++ v ++ "\n"
     | none => "")
  let prompt := prompt ++
    (match context.behavior with
     | some v => "\nSpecial behavior:\n" ++ v ++ "\n"
     | none => "")
  let goal := context.goal
  let prompt := prompt ++ "
SPEAKING STYLE:
- Speak naturally and directly. DO NOT use filler words: no \"um\", \"uh\", \"yeah\", \"like\", \"you know\", \"well\", \"hold on\", \"let me see\".
- Keep responses brief and clear (1-2 sentences). Answer questions directly without hesitation markers.
- When giving personal info (DOB, name, phone), give it clearly. Example for DOB: \"February 17th, 2026.\" or \"02/17/2026.\"
- NEVER use AI/formal language: no \"Certainly,\" \"I understand,\" \"Of course,\" \"I would be happy to,\" \"As an AI.\"
- Keep every response under 20 words unless you must give a longer detail (e.g. address).

TURN-TAKING RULES:
- Always wait until the agent finishes speaking before you respond.
- Do NOT interrupt the agent mid-sentence, even if there is a short delay.
- After the agent finishes, wait about 1–2 seconds of silence before replying, to sound natural.

SPEAKING STYLE (reason for call):
- When stating your reason for the call, start directly with \"I'd like to ...\" instead of \"Hi, I'd like to ...\" or \"Hello, I'd like to ...\".
- Keep your answers short and direct.

CONVERSATION FLOW:
- First message from agent will be a greeting. Respond with your goal in one short sentence. Example: \"I'd like to schedule an appointment.\"
- Only answer what the agent asks. Do not volunteer extra information.

CRITICAL BEHAVIOR – QUESTION PRIORITY:
1. If the agent asks you a question (e.g. \"What medication do you need refilled?\", \"What time works for you?\", \"Which pharmacy?\"), answer that question immediately and directly.
2. DO NOT repeat information you already provided (DOB, name, phone, reason for call) unless the agent explicitly asks you to repeat/reconfirm or says they did not hear or capture it.
3. When the agent's message contains BOTH a confirmation (\"Got your date of birth…\", \"I have your name as…\") AND a new question, treat the question as top priority and respond to the question first.
   Example: Agent: \"Got your date of birth. What medication do you need refilled?\" → You: \"I need a refill for Lisinopril 10 mg.\"
4. Stay focused on answering the latest question, not on repeating prior details.
5. If you have already said the same information (e.g. DOB) more than twice without the agent asking to repeat, STOP repeating it: briefly acknowledge and answer the agent's latest question or ask a clarifying question.

STRICT RULES:
1. If agent asks to verify your phone number (\"Is your number ...?\", \"Is this ...?\"), say: \"Yes, that's correct.\" Nothing more.
2. If agent greets you, respond with goal in one short sentence (under 20 words). Start with \"I'd like to ...\" — no leading \"Hi,\" or \"Hello,\".
3. Only answer the question asked. Be direct — no fillers.
4. Do not use \"Certainly,\" \"I understand,\" \"Of course,\" or any formal/AI phrasing.
5. Do not end the call yourself; wait for the agent.
6. If your goal isn't achieved and they try to end, say something like \"Wait, I still need to schedule that.\"

IMPORTANT - CHECK CONVERSATION HISTORY:
1. Only say \"No, that's all. Thank you.\" if your goal has actually been completed (e.g. appointment scheduled, refill sent).
2. DO NOT repeat requests that were already handled.
3. WAIT for the agent to completely finish speaking before you respond — do not interrupt.
4. Read the full conversation to understand what's been done. If your goal is not complete yet, keep pursuing it.
5. If agent asks \"anything else?\" — only agree to end if your goal is done; otherwise say what you still need.

GOAL TRACKING:
- Your goal: " ++ goal ++ "
- If they try to end before your goal is met, politely persist in one short line.
- If your goal is complete, say thank you and end the call naturally.

You are on a live phone call. Be direct and conversational. DO NOT use filler words.
"
  prompt

/-- The per-category completion-indicator table of
`ConversationManager._is_goal_completed` (conversation.py lines 148-153), in
Python dict insertion order. -/
def goal_keywords : List (String × List String) :=
  [("appointment", ["scheduled", "appointment is", "booked", "see you on", "confirmation"]),
   ("refill", ["prescription", "refill", "pharmacy", "sent to", "filled"]),
   ("reschedule", ["rescheduled", "moved", "changed", "new time"]),
   ("cancel", ["cancelled", "canceled", "removed from"])]

/-- The `for goal_type, keywords in goal_keywords.items():` loop of
`_is_goal_completed`: on the first `goal_type` occurring in `goal` it returns
whether any of that category's keywords occurs in `text`, and `break`s (later
categories are never consulted); with no match it falls off the loop and
returns `False`. -/
def goalLoop (goal text : String) : List (String × List String) → Bool
  | [] => false
  | (goal_type, keywords) :: rest =>
    if containsSubstr goal goal_type then keywords.any (fun kw => containsSubstr text kw)
    else goalLoop goal text rest

/-- `ConversationManager._is_goal_completed` (conversation.py lines 143-159):
check whether the scenario goal appears achieved from `conversation_text`. -/
def _is_goal_completed (scn : Scenario) (conversation_text : String) : Bool :=
  let goal := strLower scn.patient_context.goal
  let text := strLower conversation_text
  goalLoop goal text goal_keywords

/-- `llm_client.generate_patient_reply` (llm_client.py lines 22-50): delegate
to the completion capability and guard the candidate.  `none` propagates the
capability's exception; a non-exceptional result is `some`: either the
stripped candidate, or the fixed clarification substituted for an empty,
shorter-than-8-characters or denylisted candidate. -/
def generate_patient_reply (llm : LLM) (messages : List Msg) : Option String :=
  match llm messages with
  | none => none
  | some content =>
    let text := strTrim content
    if text = "" || decide (text.length < 8) ||
        decide (strLower text = "i need") || decide (strLower text = "i would like") then
      some "I'm sorry, could you repeat that?"
    else
      some text

/-- The `verification_phrases` list of `generate_reply` (conversation.py
lines 176-183). -/
def verification_phrases : List String :=
  ["speaking with", "date of birth", "verify your identity",
   "confirm your information", "your name", "who is this"]

/-- The `completion_signals` list of `generate_reply` (conversation.py
line 194). -/
def completion_signals : List String :=
  ["is there anything else", "anything else i can help"]

/-- `" ".join(entry.get("content", "") for entry in self.conversation_history)`
(conversation.py lines 197-199). -/
def historyText (cm : ConvMgr) : String :=
  String.intercalate " " (cm.conversation_history.map (fun entry => entry.content))

/-- The OpenAI chat request built in `generate_reply` (conversation.py lines
204-213): system prompt, prior history, then the latest agent turn annotated
with a low-confidence hint when `confidence < 0.7`. -/
def mkMessages (env : Env) (cm : ConvMgr) (agent_text : String) (confidence : ℚ) : List Msg :=
  let user_content :=
    "Agent: " ++ agent_text ++
      (if confidence < (0.7 : ℚ) then
        "\n(Note: Agent's speech may have been unclear - respond appropriately)"
       else "")
  { role := "system", content := generate_system_prompt env cm.scenario } ::
    (cm.conversation_history ++ [{ role := "user", content := user_content }])

/-- What `ConversationManager.generate_reply` produces: the patient reply, the
manager's state after the call, and whether the external completion capability
was invoked. -/
structure ReplyResult where
  reply : String
  cm : ConvMgr
  llm_called : Bool
deriving Repr, DecidableEq

/-- `ConversationManager.generate_reply` (conversation.py lines 161-227).
Python's early `return`s inside the verification block are rendered as guarded
branches (`verification_phase && ...`); the code shared by every fall-through
path is the `rest` continuation.  The `try` around the completion call
succeeds iff `generate_patient_reply` is `some`; only then are the two history
entries appended and `turn_count` incremented; `none` (the capability raising)
is caught and substituted by the fixed clarification with no state change. -/
def ConversationManager.generate_reply (llm : LLM) (env : Env) (cm : ConvMgr)
    (agent_text : String) (confidence : ℚ) : ReplyResult :=
  let agent_lower := strLower agent_text
  let context := cm.scenario.patient_context
  let scenario_dob := context.dob.getD "02/17/2026"
  let scenario_name := pyOrStr context.name (pyOrStr context.caller_name "Lucas")
  let dob_reply := if scenario_dob = "1970-01-01" then "January 1st, 1970." else "February 17th, 2026."
  let name_reply := "Yes, this is " ++ scenario_name ++ "."
  let verification_phase := verification_phrases.any (fun p => containsSubstr agent_lower p)
  let rest := fun (_ : Unit) =>
    let has_completion_signal := completion_signals.any (fun signal => containsSubstr agent_lower signal)
    let closing :=
      has_completion_signal &&
        _is_goal_completed cm.scenario (historyText cm ++ " " ++ agent_text)
    if closing then
      { reply := "No, that's all. Thank you!", cm := cm, llm_called := false }
    else
      let messages := mkMessages env cm agent_text confidence
      match generate_patient_reply llm messages with
      | some patient_reply =>
        { reply := patient_reply,
          cm := { cm with
                  conversation_history := cm.conversation_history ++
                    [{ role := "user", content := "Agent: " ++ agent_text },
                     { role := "assistant", content := patient_reply }],
                  turn_count := cm.turn_count + 1 },
          llm_called := true }
      | none =>
        { reply := "I'm sorry, could you repeat that?", cm := cm, llm_called := true }
  if verification_phase &&
      (containsSubstr agent_lower "speaking with" || containsSubstr agent_lower "your name" ||
        containsSubstr agent_lower "who is this") then
    { reply := name_reply, cm := cm, llm_called := false }
  else if verification_phase &&
      (containsSubstr agent_lower "date of birth" || containsSubstr agent_lower "dob") then
    { reply := dob_reply, cm := cm, llm_called := false }
  else
    rest ()

/-! ## `src/phone_system.py` — closing detection, `CallSession`,
`/handle-agent-response` -/

/-- `CLOSING_PHRASES` (phone_system.py lines 39-49). -/
def CLOSING_PHRASES : List String :=
  ["have a great day", "have a good day", "thanks for calling", "thank you for calling",
   "goodbye", "bye for now", "take care", "thanks again", "thank you again"]

/-- `is_closing_utterance` (phone_system.py lines 52-67): `if not text` is
Python string falsiness, i.e. emptiness. -/
def is_closing_utterance (text : String) : Bool :=
  if text = "" then false
  else
    let lower := strLower text
    CLOSING_PHRASES.any (fun phrase => containsSubstr lower phrase)

/-- One entry of `CallSession.transcript` (the timestamp and STT confidence
recorded there play no role in any decision and are omitted). -/
structure TranscriptEntry where
  speaker : String
  text : String
  turn : Nat
deriving Repr, DecidableEq

/-- The mutable state of a `CallSession` (phone_system.py lines 70-90).
`conversation_manager` is `none` when scenario loading failed in
`__init__` (the degraded rule-table mode). -/
structure CallSession where
  call_sid : String
  scenario_name : String
  turn_count : Nat
  transcript : List TranscriptEntry
  goal_achieved : Bool
  conversation_manager : Option ConvMgr
deriving Repr, DecidableEq

/-- `CallSession.MIN_TURNS_BEFORE_CLOSE` (phone_system.py line 90). -/
def MIN_TURNS_BEFORE_CLOSE : Nat := 3

/-- A fresh `CallSession` as `__init__` builds it (phone_system.py lines
73-86): zero turns, empty transcript, `goal_achieved = False`; the
conversation manager is `some` when loading the scenario succeeded. -/
def CallSession.initial (call_sid scenario_name : String) (cmo : Option ConvMgr) : CallSession :=
  { call_sid := call_sid, scenario_name := scenario_name, turn_count := 0,
    transcript := [], goal_achieved := false, conversation_manager := cmo }

/-- The `end_phrases` list of `should_end_call` (phone_system.py lines
105-108). -/
def end_phrases : List String :=
  ["goodbye", "have a great day", "have a good day", "take care", "thanks for calling"]

/-- The `goal_indicators` list of `should_end_call` (phone_system.py lines
111-115). -/
def goal_indicators : List String :=
  ["appointment is scheduled", "appointment is confirmed", "appointment on",
   "see you on", "we'll send you", "confirmation", "all set", "you're all set"]

/-- `CallSession.should_end_call` (phone_system.py lines 92-131).  The method
both decides termination and mutates `self.goal_achieved`, so it is embedded
as `(decision, session after the call)`.  Below the minimum-turn gate the
goal flag is first updated from `goal_indicators`, then the decision is
`has_ending_phrase and (goal_achieved or turn_count >= 20)`, else the
unconditional `turn_count >= 25` safety cap, else `False`. -/
def should_end_call (s : CallSession) (agent_text : String) : Bool × CallSession :=
  if s.turn_count < MIN_TURNS_BEFORE_CLOSE then (false, s)
  else
    let agent_lower := strLower agent_text
    let s1 :=
      if goal_indicators.any (fun indicator => containsSubstr agent_lower indicator) then
        { s with goal_achieved := true }
      else s
    let has_ending_phrase := end_phrases.any (fun phrase => containsSubstr agent_lower phrase)
    if has_ending_phrase && (s1.goal_achieved || decide (20 ≤ s1.turn_count)) then (true, s1)
    else if decide (25 ≤ s1.turn_count) then (true, s1)
    else (false, s1)

/-- `generate_simple_reply_fallback` (phone_system.py lines 359-368): the
rule-table fallback when no conversation manager is available. -/
def generate_simple_reply_fallback (agent_text : String) : String :=
  let agent_lower := strLower agent_text
  if containsSubstr agent_lower "date of birth" || containsSubstr agent_lower "birthday" then
    "February 17th, 2026"
  else if containsSubstr agent_lower "phone" || containsSubstr agent_lower "callback" ||
      containsSubstr agent_lower "number" then
    "Yes, that's correct."
  else if containsSubstr agent_lower "name" then "Lucas"
  else "Okay, thank you."

/-- `generate_gpt_reply` (phone_system.py lines 336-356) for a session already
resolved from the registry: delegate to the conversation manager when one is
present, else fall back to the rule table.  (The `try`/`except` there is dead
for the modelled manager, whose `generate_reply` absorbs completion failures
itself.)  Returns the reply and the session with the updated manager. -/
def generate_gpt_reply (llm : LLM) (env : Env) (s : CallSession)
    (agent_text : String) (confidence : ℚ) : String × CallSession :=
  match s.conversation_manager with
  | some cm =>
    let r := ConversationManager.generate_reply llm env cm agent_text confidence
    (r.reply, { s with conversation_manager := some r.cm })
  | none => (generate_simple_reply_fallback agent_text, s)

/-- What one `/handle-agent-response` webhook invocation does with the call:
tear it down silently because the agent audibly closed (`agentClosing`,
phone_system.py lines 278-281), speak "Thank you, goodbye." and hang up
because `should_end_call` fired (`naturalEnd`, lines 284-291), speak the
generated reply and keep listening (`replied`, lines 300-317), or hang up
after "Thank you, goodbye." because the generated reply was empty
(`hangupEmptyReply`, lines 318-321). -/
inductive AgentTurnOutcome
  | agentClosing
  | naturalEnd
  | replied (text : String)
  | hangupEmptyReply
deriving Repr, DecidableEq

/-- `handle_agent_response` (phone_system.py lines 236-333), from the point
where the session is resolved: append the agent turn and bump `turn_count`;
below `MIN_TURNS_BEFORE_CLOSE` the closing-utterance detector is
short-circuited away; then the `should_end_call` check; else generate the
patient reply, append it and bump `turn_count` again (an empty reply takes the
hang-up branch, with "Thank you, goodbye." persisted in its place). -/
def appendAgentTurn (s : CallSession) (agent_speech : String) : CallSession :=
  { s with
    transcript := s.transcript ++ [{ speaker := "agent", text := agent_speech, turn := s.turn_count }],
    turn_count := s.turn_count + 1 }

/-- The TwiML-building tail of `handle_agent_response` (phone_system.py lines
300-331): speak a non-empty reply and keep listening, or hang up on an empty
one; either way the patient turn (`patient_reply or "Thank you, goodbye."`)
is appended and `turn_count` bumped. -/
def patientSpeak (p : String × CallSession) : AgentTurnOutcome × CallSession :=
  if p.1 = "" then
    (AgentTurnOutcome.hangupEmptyReply,
      { p.2 with
        transcript := p.2.transcript ++
          [{ speaker := "patient", text := "Thank you, goodbye.", turn := p.2.turn_count }],
        turn_count := p.2.turn_count + 1 })
  else
    (AgentTurnOutcome.replied p.1,
      { p.2 with
        transcript := p.2.transcript ++
          [{ speaker := "patient", text := p.1, turn := p.2.turn_count }],
        turn_count := p.2.turn_count + 1 })

/-- The decision chain of `handle_agent_response` once the agent turn has
been recorded (`s1` is the session after the append and increment): the
closing-utterance early exit gated by `MIN_TURNS_BEFORE_CLOSE`, then
`should_end_call` (whose goal-flag side effect is threaded through either
way), then reply generation. -/
def handle_agent_checks (llm : LLM) (env : Env) (s1 : CallSession)
    (agent_speech : String) (confidence : ℚ) : AgentTurnOutcome × CallSession :=
  if decide (MIN_TURNS_BEFORE_CLOSE ≤ s1.turn_count) && is_closing_utterance agent_speech then
    (AgentTurnOutcome.agentClosing, s1)
  else if (should_end_call s1 agent_speech).1 then
    (AgentTurnOutcome.naturalEnd, (should_end_call s1 agent_speech).2)
  else
    patientSpeak
      (generate_gpt_reply llm env (should_end_call s1 agent_speech).2 agent_speech confidence)

def handle_agent_response (llm : LLM) (env : Env) (s : CallSession)
    (agent_speech : String) (confidence : ℚ) : AgentTurnOutcome × CallSession :=
  handle_agent_checks llm env (appendAgentTurn s agent_speech) agent_speech confidence

/-- A whole call driven by a sequence of agent utterances (each with its STT
confidence), one `/handle-agent-response` invocation per utterance: the
session state after the sequence. -/
def runCall (llm : LLM) (env : Env) : CallSession → List (String × ℚ) → CallSession
  | s, [] => s
  | s, (t, c) :: rest => runCall llm env (handle_agent_response llm env s t c).2 rest

/-! ## Concrete fixtures used by witnesses and counterexamples -/

/-- A minimal appointment-scheduling scenario (only `goal` set, as in the
default `appointment_scheduling` flow). -/
def scn0 : Scenario :=
  { name := "appointment_scheduling",
    patient_context := { goal := "schedule an appointment" } }

/-- A fresh conversation manager over `scn0`. -/
def cm0 : ConvMgr := { scenario := scn0, conversation_history := [], turn_count := 0 }

/-- No `PATIENT_NAME` / `PATIENT_PHONE` environment variables set. -/
def env0 : Env := {}

/-- A completion capability that always raises. -/
def llmNone : LLM := fun _ => none

/-- A completion capability that always returns one fixed well-formed
candidate (long enough, not denylisted). -/
def llmCanned : LLM := fun _ => some "Certainly, let me pull up your records now."

/-- A completion capability that always returns a too-short candidate
(stripped length 3 < 8), which `generate_patient_reply` rejects. -/
def llmShort : LLM := fun _ => some "Hi."

/-- A manager over `scn0` whose history already records that the appointment
was booked (so `_is_goal_completed` holds of any text containing it). -/
def cm6 : ConvMgr :=
  { scenario := scn0,
    conversation_history := [{ role := "assistant", content := "Your appointment is booked for Monday." }],
    turn_count := 1 }

/-- A session with 24 prior turns, goal not achieved, degraded (manager-less)
mode: the scenario of claim C1. -/
def sess24 : CallSession :=
  { call_sid := "CA-c1", scenario_name := "appointment_scheduling", turn_count := 24,
    transcript := [], goal_achieved := false, conversation_manager := none }

/-- A session with 21 prior turns and goal not achieved. -/
def sess21 : CallSession :=
  { call_sid := "CA-c2", scenario_name := "appointment_scheduling", turn_count := 21,
    transcript := [], goal_achieved := false, conversation_manager := none }

/-- A fresh manager-less session (turn 0). -/
def sess0 : CallSession := CallSession.initial "CA-c3" "appointment_scheduling" none

/-- A mid-call session whose goal flag is already set. -/
def sessGoalTrue : CallSession :=
  { call_sid := "CA-c4", scenario_name := "appointment_scheduling", turn_count := 4,
    transcript := [], goal_achieved := true, conversation_manager := none }

/-- A session mid-call (5 turns) holding the default manager. -/
def sess7 : CallSession :=
  { call_sid := "CA-c7", scenario_name := "appointment_scheduling", turn_count := 5,
    transcript := [], goal_achieved := false, conversation_manager := some cm0 }

/-- A scenario whose goal text names two categories: "cancel my appointment"
contains both "appointment" (first in dict order) and "cancel". -/
def scn10 : Scenario :=
  { name := "cancel_appointment",
    patient_context := { goal := "cancel my appointment" } }

/-! ## Claim C1 -/

/-- Claim C1, refuted at its own scenario: with 24 prior turns and
`goal_achieved` false, processing an agent "goodbye" does NOT leave the
session active — `turn_count` becomes 25 ≥ `MIN_TURNS_BEFORE_CLOSE`, so the
closing-utterance detector fires and the session ends (`agentClosing`, no
patient reply) even though `goal_achieved` is still false, contradicting the
claim's "transitions to ENDING only if `goal_achieved` was set true earlier;
otherwise the session remains ACTIVE". -/
theorem claim1_counterexample :
    sess24.goal_achieved = false ∧
    (handle_agent_response llmNone env0 sess24 "goodbye" 1).1 = AgentTurnOutcome.agentClosing ∧
    (handle_agent_response llmNone env0 sess24 "goodbye" 1).2.goal_achieved = false := by
  decide

/-- Claim C1 (corrected): with 24 prior turns, an agent utterance "goodbye"
ends the session unconditionally — whatever the goal flag, transcript,
conversation manager, completion capability or confidence — because the
incremented turn count (25) is at least `MIN_TURNS_BEFORE_CLOSE`, so the
closing-utterance early exit fires before `should_end_call` or any reply
generation is reached; `goal_achieved` plays no role. -/
theorem claim1_goodbye_ends_unconditionally (g : Bool) (sid scname : String)
    (tr : List TranscriptEntry) (cmo : Option ConvMgr) (llm : LLM) (env : Env) (conf : ℚ) :
    (handle_agent_response llm env
        { call_sid := sid, scenario_name := scname, turn_count := 24, transcript := tr,
          goal_achieved := g, conversation_manager := cmo } "goodbye" conf).1 =
      AgentTurnOutcome.agentClosing := by
  have h : is_closing_utterance "goodbye" = true := by decide
  simp [handle_agent_response, handle_agent_checks, appendAgentTurn, h, MIN_TURNS_BEFORE_CLOSE]

/-! ## Claim C2 -/

/-- Claim C2: for every session state with `turn_count ≥ 3` and every agent
utterance, `should_end_call` returns true iff (the utterance contains one of
the fixed end-phrases AND (the goal flag — as just updated from the
utterance's goal indicators, per the spec's "update `goal_achieved` ...; then
transition" sequencing — is true OR `turn_count ≥ 20`)) OR `turn_count ≥ 25`;
in particular, at `turn_count ≥ 25` it returns true unconditionally. -/
theorem claim2_should_end_call_iff (s : CallSession) (t : String)
    (h : MIN_TURNS_BEFORE_CLOSE ≤ s.turn_count) :
    ((should_end_call s t).1 =
      (((end_phrases.any (fun phrase => containsSubstr (strLower t) phrase)) &&
        ((s.goal_achieved || goal_indicators.any (fun indicator => containsSubstr (strLower t) indicator)) ||
          decide (20 ≤ s.turn_count))) ||
      decide (25 ≤ s.turn_count))) ∧
    (25 ≤ s.turn_count → (should_end_call s t).1 = true) := by
  have hnot : ¬ s.turn_count < MIN_TURNS_BEFORE_CLOSE := by omega
  have main : (should_end_call s t).1 =
      (((end_phrases.any (fun phrase => containsSubstr (strLower t) phrase)) &&
        ((s.goal_achieved ||
            goal_indicators.any (fun indicator => containsSubstr (strLower t) indicator)) ||
          decide (20 ≤ s.turn_count))) ||
      decide (25 ≤ s.turn_count)) := by
    unfold should_end_call
    rw [if_neg hnot]
    by_cases h25 : 25 ≤ s.turn_count
    · have h20 : 20 ≤ s.turn_count := by omega
      cases hind : goal_indicators.any (fun indicator => containsSubstr (strLower t) indicator) <;>
        cases hend : end_phrases.any (fun phrase => containsSubstr (strLower t) phrase) <;>
          simp [hind, hend, h20, h25]
    · by_cases h20 : 20 ≤ s.turn_count
      · cases hind : goal_indicators.any (fun indicator => containsSubstr (strLower t) indicator) <;>
          cases hend : end_phrases.any (fun phrase => containsSubstr (strLower t) phrase) <;>
            simp [hind, hend, h20, h25]
      · cases hind : goal_indicators.any (fun indicator => containsSubstr (strLower t) indicator) <;>
          cases hend : end_phrases.any (fun phrase => containsSubstr (strLower t) phrase) <;>
            cases hg : s.goal_achieved <;> simp [hind, hend, hg, h20, h25]
  exact ⟨main, fun h25 => by rw [main]; simp [h25]⟩

/-- Witness for C2 at a concrete input: `sess21` (21 turns, goal false) and
the utterance "Goodbye now". -/
theorem claim2_witness :
    ((should_end_call sess21 "Goodbye now").1 =
      (((end_phrases.any (fun phrase => containsSubstr (strLower "Goodbye now") phrase)) &&
        ((sess21.goal_achieved ||
            goal_indicators.any (fun indicator => containsSubstr (strLower "Goodbye now") indicator)) ||
          decide (20 ≤ sess21.turn_count))) ||
      decide (25 ≤ sess21.turn_count))) ∧
    (25 ≤ sess21.turn_count → (should_end_call sess21 "Goodbye now").1 = true) :=
  claim2_should_end_call_iff sess21 "Goodbye now" (by decide)

/-- `patientSpeak` only ever hangs up on an empty reply or speaks: it never
produces the two termination-check outcomes, and it preserves the goal
flag. -/
theorem patientSpeak_outcome (p : String × CallSession) :
    (patientSpeak p).1 ≠ AgentTurnOutcome.agentClosing ∧
    (patientSpeak p).1 ≠ AgentTurnOutcome.naturalEnd := by
  unfold patientSpeak
  split <;> simp

theorem patientSpeak_goal (p : String × CallSession) :
    (patientSpeak p).2.goal_achieved = p.2.goal_achieved := by
  unfold patientSpeak
  split <;> rfl

/-! ## Claim C3 -/

/-- Claim C3: for any utterance whatsoever (closing-phrase text included), no
termination is signaled while the turn count is below
`MIN_TURNS_BEFORE_CLOSE = 3`: the webhook handler on turns 1 and 2 (i.e. when
the incremented count is still below 3) never yields the closing-detector exit
nor the natural end — the `turn_count >= 3` conjunct short-circuits the
detector away — and `should_end_call` below 3 turns returns `False` leaving
the session untouched. -/
theorem claim3_no_early_termination (llm : LLM) (env : Env) (s s2 : CallSession)
    (t t2 : String) (conf : ℚ)
    (h : s.turn_count + 1 < MIN_TURNS_BEFORE_CLOSE)
    (h2 : s2.turn_count < MIN_TURNS_BEFORE_CLOSE) :
    (handle_agent_response llm env s t conf).1 ≠ AgentTurnOutcome.agentClosing ∧
    (handle_agent_response llm env s t conf).1 ≠ AgentTurnOutcome.naturalEnd ∧
    should_end_call s2 t2 = (false, s2) := by
  have hse : ∀ s3 : CallSession, s3.turn_count < MIN_TURNS_BEFORE_CLOSE →
      ∀ t3, should_end_call s3 t3 = (false, s3) := by
    intro s3 h3 t3
    unfold should_end_call
    rw [if_pos h3]
  have key : ∀ s1 : CallSession, s1.turn_count < MIN_TURNS_BEFORE_CLOSE →
      (handle_agent_checks llm env s1 t conf).1 ≠ AgentTurnOutcome.agentClosing ∧
      (handle_agent_checks llm env s1 t conf).1 ≠ AgentTurnOutcome.naturalEnd := by
    intro s1 h1
    unfold handle_agent_checks
    rw [decide_eq_false (by omega : ¬ MIN_TURNS_BEFORE_CLOSE ≤ s1.turn_count), Bool.false_and,
      if_neg (by simp), hse s1 h1 t, if_neg (by simp)]
    exact patientSpeak_outcome _
  have h1 : (appendAgentTurn s t).turn_count < MIN_TURNS_BEFORE_CLOSE := h
  exact ⟨(key _ h1).1, (key _ h1).2, hse s2 h2 t2⟩

/-- Witness for C3: a fresh session (turn 0) receiving the closing-phrase
utterance "Thanks for calling, goodbye" on turn 1. -/
theorem claim3_witness :
    (handle_agent_response llmNone env0 sess0 "Thanks for calling, goodbye" 1).1 ≠
      AgentTurnOutcome.agentClosing ∧
    (handle_agent_response llmNone env0 sess0 "Thanks for calling, goodbye" 1).1 ≠
      AgentTurnOutcome.naturalEnd ∧
    should_end_call sess0 "goodbye" = (false, sess0) :=
  claim3_no_early_termination llmNone env0 sess0 sess0 "Thanks for calling, goodbye" "goodbye" 1
    (by decide) (by decide)

/-! ## Claim C4 -/

/-- `should_end_call` never clears the goal flag. -/
theorem should_end_call_goal_mono (s : CallSession) (t : String)
    (h : s.goal_achieved = true) : (should_end_call s t).2.goal_achieved = true := by
  unfold should_end_call
  split
  · exact h
  · dsimp only
    split_ifs <;> simp_all

/-- `generate_gpt_reply` touches only the conversation manager, never the
goal flag. -/
theorem generate_gpt_reply_goal (llm : LLM) (env : Env) (s : CallSession)
    (t : String) (conf : ℚ) :
    (generate_gpt_reply llm env s t conf).2.goal_achieved = s.goal_achieved := by
  unfold generate_gpt_reply
  rcases s.conversation_manager with _ | cm <;> simp

/-- One webhook invocation never clears the goal flag. -/
theorem handle_agent_response_goal_mono (llm : LLM) (env : Env) (s : CallSession)
    (t : String) (conf : ℚ) (h : s.goal_achieved = true) :
    (handle_agent_response llm env s t conf).2.goal_achieved = true := by
  have hg : (appendAgentTurn s t).goal_achieved = true := h
  unfold handle_agent_response handle_agent_checks
  split
  · exact hg
  · split
    · exact should_end_call_goal_mono _ t hg
    · rw [patientSpeak_goal, generate_gpt_reply_goal]
      exact should_end_call_goal_mono _ t hg

/-- Claim C4: `goal_achieved` is monotonic within a session — it starts
`False` at `__init__`, and across any sequence of processed agent utterances,
once true it is never reset to false by any later webhook invocation. -/
theorem claim4_goal_achieved_monotonic :
    (∀ sid scname cmo, (CallSession.initial sid scname cmo).goal_achieved = false) ∧
    (∀ (llm : LLM) (env : Env) (s : CallSession) (turns : List (String × ℚ)),
      s.goal_achieved = true → (runCall llm env s turns).goal_achieved = true) := by
  constructor
  · intro sid scname cmo; rfl
  · intro llm env s turns
    induction turns generalizing s with
    | nil => exact fun h => h
    | cons p rest ih =>
      intro h
      obtain ⟨t, c⟩ := p
      exact ih _ (handle_agent_response_goal_mono llm env s t c h)

/-- Witness for C4: a session whose goal flag is set keeps it set across two
further turns (the second a closing one). -/
theorem claim4_witness :
    (runCall llmNone env0 sessGoalTrue [("hello there", 1), ("goodbye", 1)]).goal_achieved = true :=
  claim4_goal_achieved_monotonic.2 llmNone env0 sessGoalTrue [("hello there", 1), ("goodbye", 1)] rfl

/-! ## Claim C5 -/

/-- A name-trigger hit implies the verification phase is on (each name
trigger is itself one of the `verification_phrases`). -/
theorem name_trigger_verification (t : String)
    (h : (containsSubstr (strLower t) "speaking with" || containsSubstr (strLower t) "your name" ||
        containsSubstr (strLower t) "who is this") = true) :
    verification_phrases.any (fun p => containsSubstr (strLower t) p) = true := by
  simp only [verification_phrases, List.any_cons, List.any_nil, Bool.or_false,
    Bool.or_eq_true] at h ⊢
  tauto

/-- Claim C5, refuted: the agent utterance "I need to verify your identity
before we proceed." contains the verification trigger "verify your identity",
yet `generate_reply` does NOT answer deterministically from the persona — it
falls through to the generative phase, invokes the external completion
capability, and returns its candidate rather than the name or
date-of-birth reply. -/
theorem claim5_counterexample :
    (ConversationManager.generate_reply llmCanned env0 cm0
        "I need to verify your identity before we proceed." 1).llm_called = true ∧
    (ConversationManager.generate_reply llmCanned env0 cm0
        "I need to verify your identity before we proceed." 1).reply =
      "Certainly, let me pull up your records now." ∧
    (ConversationManager.generate_reply llmCanned env0 cm0
        "I need to verify your identity before we proceed." 1).reply ≠ "Yes, this is Lucas." ∧
    (ConversationManager.generate_reply llmCanned env0 cm0
        "I need to verify your identity before we proceed." 1).reply ≠ "February 17th, 2026." ∧
    (ConversationManager.generate_reply llmCanned env0 cm0
        "I need to verify your identity before we proceed." 1).reply ≠ "January 1st, 1970." := by
  decide

/-- Claim C5 (corrected): only the name triggers ("speaking with",
"your name", "who is this") and — below them in priority — the date-of-birth
triggers ("date of birth", or "dob" together with some verification phrase)
are answered deterministically, without invoking the completion capability and
independently of the conversation history: the name reply is
"Yes, this is {scenario name}." built from the persona fields, and the DOB
reply is the fixed spoken form selected by the scenario's `dob` field.  The
triggers "verify your identity" and "confirm your information" alone fall
through to the later phases. -/
theorem claim5_verification_phase (llm : LLM) (env : Env) (cm : ConvMgr)
    (t : String) (conf : ℚ) :
    ((containsSubstr (strLower t) "speaking with" || containsSubstr (strLower t) "your name" ||
        containsSubstr (strLower t) "who is this") = true →
      ConversationManager.generate_reply llm env cm t conf =
        { reply := "Yes, this is " ++
            pyOrStr cm.scenario.patient_context.name
              (pyOrStr cm.scenario.patient_context.caller_name "Lucas") ++ ".",
          cm := cm, llm_called := false }) ∧
    ((containsSubstr (strLower t) "speaking with" || containsSubstr (strLower t) "your name" ||
        containsSubstr (strLower t) "who is this") = false →
      verification_phrases.any (fun p => containsSubstr (strLower t) p) = true →
      (containsSubstr (strLower t) "date of birth" || containsSubstr (strLower t) "dob") = true →
      ConversationManager.generate_reply llm env cm t conf =
        { reply := if cm.scenario.patient_context.dob.getD "02/17/2026" = "1970-01-01" then
              "January 1st, 1970." else "February 17th, 2026.",
          cm := cm, llm_called := false }) := by
  constructor
  · intro h
    have hv := name_trigger_verification t h
    unfold ConversationManager.generate_reply
    dsimp only
    rw [hv, h]
    simp
  · intro h1 h2 h3
    unfold ConversationManager.generate_reply
    dsimp only
    rw [h1, h2, h3]
    simp

/-- Witness for (the corrected) C5: both deterministic branches at concrete
utterances over the default scenario. -/
theorem claim5_witness :
    ConversationManager.generate_reply llmNone env0 cm0 "What is your name?" 1 =
      { reply := "Yes, this is Lucas.", cm := cm0, llm_called := false } ∧
    ConversationManager.generate_reply llmNone env0 cm0
        "Please verify your identity: what is your dob?" 1 =
      { reply := "February 17th, 2026.", cm := cm0, llm_called := false } := by
  constructor
  · exact ((claim5_verification_phase llmNone env0 cm0 "What is your name?" 1).1
      (by decide)).trans (by decide)
  · exact ((claim5_verification_phase llmNone env0 cm0
      "Please verify your identity: what is your dob?" 1).2
      (by decide) (by decide) (by decide)).trans (by decide)

/-! ## Claim C6 -/

/-- Claim C6, refuted: "Is there anything else I can help with regarding your
name?" contains the closing-offer phrase "anything else i can help", and the
goal evaluator judges the goal satisfied over history-plus-utterance (the
history of `cm6` records the appointment as booked) — yet `generate_reply`
returns the verification name reply, not the fixed acknowledgment, because
the verification phase has higher priority. -/
theorem claim6_counterexample :
    containsSubstr (strLower "Is there anything else I can help with regarding your name?")
      "anything else i can help" = true ∧
    _is_goal_completed scn0
      (historyText cm6 ++ " " ++ "Is there anything else I can help with regarding your name?") = true ∧
    (ConversationManager.generate_reply llmNone env0 cm6
        "Is there anything else I can help with regarding your name?" 1).reply = "Yes, this is Lucas." ∧
    (ConversationManager.generate_reply llmNone env0 cm6
        "Is there anything else I can help with regarding your name?" 1).reply ≠
      "No, that's all. Thank you!" := by
  decide

/-- Claim C6 (corrected): for an utterance containing a closing-offer phrase,
NOT containing any trigger the higher-priority verification phase handles
(no name trigger; no "date of birth"/"dob" while a verification phrase is
present), and over which (concatenated after all prior history) the goal
evaluator judges the goal satisfied, `generate_reply` returns exactly
"No, that's all. Thank you!", leaves the manager untouched and does not
invoke the completion capability. -/
theorem claim6_completion_offer (llm : LLM) (env : Env) (cm : ConvMgr)
    (t : String) (conf : ℚ)
    (h1 : (containsSubstr (strLower t) "speaking with" || containsSubstr (strLower t) "your name" ||
        containsSubstr (strLower t) "who is this") = false)
    (h2 : (verification_phrases.any (fun p => containsSubstr (strLower t) p) &&
        (containsSubstr (strLower t) "date of birth" || containsSubstr (strLower t) "dob")) = false)
    (h3 : completion_signals.any (fun signal => containsSubstr (strLower t) signal) = true)
    (h4 : _is_goal_completed cm.scenario (historyText cm ++ " " ++ t) = true) :
    ConversationManager.generate_reply llm env cm t conf =
      { reply := "No, that's all. Thank you!", cm := cm, llm_called := false } := by
  unfold ConversationManager.generate_reply
  dsimp only
  rw [h1, Bool.and_false, h2, h3, h4]
  simp

/-- Witness for (the corrected) C6: a plain closing-offer utterance over the
booked-appointment history. -/
theorem claim6_witness :
    ConversationManager.generate_reply llmNone env0 cm6
        "Is there anything else I can help with today?" 1 =
      { reply := "No, that's all. Thank you!", cm := cm6, llm_called := false } :=
  claim6_completion_offer llmNone env0 cm6 "Is there anything else I can help with today?" 1
    (by decide) (by decide) (by decide) (by decide)

/-! ## Claim C7 -/

/-- Under a completion capability that only fails or returns rejected
candidates (empty, shorter than 8 characters once stripped, or a denylisted
fragment), `generate_patient_reply` yields either the propagated failure or
the substituted fixed clarification. -/
theorem generate_patient_reply_bad (llm : LLM)
    (hbad : ∀ msgs, llm msgs = none ∨ ∃ c, llm msgs = some c ∧
        (decide (strTrim c = "") || decide ((strTrim c).length < 8) ||
          decide (strLower (strTrim c) = "i need") ||
          decide (strLower (strTrim c) = "i would like")) = true)
    (msgs : List Msg) :
    generate_patient_reply llm msgs = none ∨
    generate_patient_reply llm msgs = some "I'm sorry, could you repeat that?" := by
  rcases hbad msgs with h | ⟨c, hc, hguard⟩
  · left
    unfold generate_patient_reply
    rw [h]
  · right
    unfold generate_patient_reply
    rw [hc]
    dsimp only
    rw [if_pos hguard]

/-- Whatever `some rep` `generate_patient_reply` returns is non-empty: the
guard substitutes the (non-empty) clarification for an empty candidate. -/
theorem generate_patient_reply_ne_empty (llm : LLM) (msgs : List Msg) (rep : String)
    (h : generate_patient_reply llm msgs = some rep) : rep ≠ "" := by
  unfold generate_patient_reply at h
  rcases hl : llm msgs with _ | c
  · rw [hl] at h
    exact absurd h (by simp)
  · rw [hl] at h
    dsimp only at h
    split_ifs at h with hguard
    · injection h with h2
      rw [← h2]
      decide
    · injection h with h2
      rw [← h2]
      intro habs
      apply hguard
      rw [habs]
      simp

/-- For every completion capability, environment, manager state and utterance,
`generate_reply` never returns the empty string: every deterministic reply is
a non-empty literal and the generative path is guarded by
`generate_patient_reply`. -/
theorem generate_reply_nonempty (llm : LLM) (env : Env) (cm : ConvMgr)
    (t : String) (conf : ℚ) :
    (ConversationManager.generate_reply llm env cm t conf).reply ≠ "" := by
  unfold ConversationManager.generate_reply
  dsimp only
  split_ifs with hc1 hc2 hc3 hc4
  · intro habs
    have h := congrArg String.length habs
    rw [String.length_append, String.length_append] at h
    simp only [show ("Yes, this is " : String).length = 13 from rfl,
      show ("." : String).length = 1 from rfl,
      show ("" : String).length = 0 from rfl] at h
    omega
  · simp
  · simp
  · simp
  · rcases hgen : generate_patient_reply llm (mkMessages env cm t conf) with _ | rep
    · simp
    · simpa using generate_patient_reply_ne_empty llm _ rep hgen

/-- `should_end_call` never touches the conversation manager. -/
theorem should_end_call_cm (s : CallSession) (t : String) :
    (should_end_call s t).2.conversation_manager = s.conversation_manager := by
  unfold should_end_call
  dsimp only
  split_ifs <;> rfl

/-- `generate_gpt_reply` on a session holding a conversation manager: the
manager's `generate_reply` result, with the updated manager stored back. -/
theorem generate_gpt_reply_some (llm : LLM) (env : Env) (s : CallSession)
    (t : String) (conf : ℚ) (cm : ConvMgr) (h : s.conversation_manager = some cm) :
    generate_gpt_reply llm env s t conf =
      ((ConversationManager.generate_reply llm env cm t conf).reply,
       { s with conversation_manager := some (ConversationManager.generate_reply llm env cm t conf).cm }) := by
  unfold generate_gpt_reply
  rw [h]

/-- A non-empty reply never takes the empty-reply hang-up branch. -/
theorem patientSpeak_ne_hangup (p : String × CallSession) (h : p.1 ≠ "") :
    (patientSpeak p).1 ≠ AgentTurnOutcome.hangupEmptyReply := by
  unfold patientSpeak
  rw [if_neg h]
  simp

/-- Claim C7: when the external completion capability fails (raises) or only
returns candidates that the guard rejects (empty, stripped length < 8, or the
denylisted fragments "I need" / "I would like"), then (a) whenever
`generate_reply` did consult the capability its reply is the fixed
clarification "I'm sorry, could you repeat that?" — it never propagates the
failure — and (b) the webhook invocation never takes the hang-up-on-empty-
reply branch: a generation failure triggers no termination, the session stays
in its normal flow. -/
theorem claim7_generation_failure (llm : LLM) (env : Env) (s : CallSession)
    (cm : ConvMgr) (t : String) (conf : ℚ)
    (hcm : s.conversation_manager = some cm)
    (hbad : ∀ msgs, llm msgs = none ∨ ∃ c, llm msgs = some c ∧
        (decide (strTrim c = "") || decide ((strTrim c).length < 8) ||
          decide (strLower (strTrim c) = "i need") ||
          decide (strLower (strTrim c) = "i would like")) = true) :
    ((ConversationManager.generate_reply llm env cm t conf).llm_called = true →
      (ConversationManager.generate_reply llm env cm t conf).reply =
        "I'm sorry, could you repeat that?") ∧
    (handle_agent_response llm env s t conf).1 ≠ AgentTurnOutcome.hangupEmptyReply := by
  constructor
  · unfold ConversationManager.generate_reply
    dsimp only
    split_ifs with hc1 hc2 hc3 hc4
    · intro h
      exact absurd h (by simp)
    · intro h
      exact absurd h (by simp)
    · intro h
      exact absurd h (by simp)
    · intro h
      exact absurd h (by simp)
    · rcases generate_patient_reply_bad llm hbad (mkMessages env cm t conf) with hnone | hclar
      · rw [hnone]
        intro _
        rfl
      · rw [hclar]
        intro _
        rfl
  · unfold handle_agent_response handle_agent_checks
    split_ifs with hc1 hc2
    · simp
    · simp
    · have hX : (should_end_call (appendAgentTurn s t) t).2.conversation_manager = some cm := by
        rw [should_end_call_cm]
        exact hcm
      rw [generate_gpt_reply_some llm env _ t conf cm hX]
      exact patientSpeak_ne_hangup _ (generate_reply_nonempty llm env cm t conf)

/-- Witness for C7: the always-failing capability on an ordinary mid-call
utterance. -/
theorem claim7_witness :
    ((ConversationManager.generate_reply llmNone env0 cm0 "What can I do for you today?" 1).llm_called = true →
      (ConversationManager.generate_reply llmNone env0 cm0 "What can I do for you today?" 1).reply =
        "I'm sorry, could you repeat that?") ∧
    (handle_agent_response llmNone env0 sess7 "What can I do for you today?" 1).1 ≠
      AgentTurnOutcome.hangupEmptyReply :=
  claim7_generation_failure llmNone env0 sess7 cm0 "What can I do for you today?" 1 rfl
    (fun _ => Or.inl rfl)

/-! ## Claim C8 -/

/-- The classification loop of `_is_goal_completed` in terms of `List.find?`:
it consults exactly the first category whose name occurs in the goal text. -/
theorem goalLoop_eq_find (g txt : String) (l : List (String × List String)) :
    goalLoop g txt l =
      (match l.find? (fun p => containsSubstr g p.1) with
        | none => false
        | some p => p.2.any (fun kw => containsSubstr txt kw)) := by
  induction l with
  | nil => rfl
  | cons hd tl ih =>
    rcases hd with ⟨gt, kws⟩
    unfold goalLoop
    by_cases hmatch : containsSubstr g gt = true
    · rw [if_pos hmatch]
      simp [hmatch]
    · rw [if_neg hmatch, ih]
      simp [hmatch]

/-- Claim C8: the goal evaluator returns true iff the goal text contains one
of the fixed category names — the first such, in the order appointment,
refill, reschedule, cancel — and the conversation text contains at least one
of that category's completion indicators; in particular, when the goal text
matches no known category it returns false. -/
theorem claim8_goal_evaluator_iff (scn : Scenario) (text : String) :
    (_is_goal_completed scn text = true ↔
      ∃ gt kws,
        goal_keywords.find?
          (fun p => containsSubstr (strLower scn.patient_context.goal) p.1) = some (gt, kws) ∧
        kws.any (fun kw => containsSubstr (strLower text) kw) = true) ∧
    (goal_keywords.find?
        (fun p => containsSubstr (strLower scn.patient_context.goal) p.1) = none →
      _is_goal_completed scn text = false) := by
  unfold _is_goal_completed
  dsimp only
  rw [goalLoop_eq_find]
  rcases hfind : goal_keywords.find?
      (fun p => containsSubstr (strLower scn.patient_context.goal) p.1) with _ | ⟨gt, kws⟩
  · simp [hfind]
  · simp only [hfind]
    constructor
    · constructor
      · intro h
        exact ⟨gt, kws, rfl, h⟩
      · rintro ⟨g1, k1, heq, h⟩
        injection heq with heq2
        cases heq2
        exact h
    · intro habs
      exact absurd habs (by simp)

/-! ## Claim C9 -/

/-- Claim C9, refuted: when the completion capability returns the too-short
candidate "Hi.", `generate_patient_reply` substitutes the fixed clarification
— yet `generate_reply` treats that substitution as a successful generative
reply: it DOES modify the state (turn counter incremented, two history
entries appended) and the substituted clarification itself becomes the
assistant message of the history later sent to the capability. -/
theorem claim9_counterexample :
    (ConversationManager.generate_reply llmShort env0 cm0
        "What medication do you need refilled?" 1).reply = "I'm sorry, could you repeat that?" ∧
    (ConversationManager.generate_reply llmShort env0 cm0
        "What medication do you need refilled?" 1).cm.turn_count = cm0.turn_count + 1 ∧
    (ConversationManager.generate_reply llmShort env0 cm0
        "What medication do you need refilled?" 1).cm.conversation_history ≠
      cm0.conversation_history ∧
    ({ role := "assistant", content := "I'm sorry, could you repeat that?" } : Msg) ∈
      (ConversationManager.generate_reply llmShort env0 cm0
        "What medication do you need refilled?" 1).cm.conversation_history := by
  decide

/-- Claim C9 (corrected): the frame effects of `generate_reply` are exactly
these — (a) every return that did not consult the completion capability (the
verification replies and the completion-offer acknowledgment) leaves the
manager state untouched; (b) every non-exceptional return of the completion
wrapper — including the clarification it substitutes for a rejected
candidate — is treated as a successful generative reply: the history receives
exactly the two entries "Agent: {utterance}" then the reply, in that order,
and the turn counter increments by exactly 1; (c) an exceptional failure of
the capability leaves the state untouched and yields the fixed clarification.
So verification exchanges and exception-path clarifications never enter the
history, but a clarification substituted for a rejected candidate does. -/
theorem claim9_frame_effects (llm : LLM) (env : Env) (cm : ConvMgr)
    (t : String) (conf : ℚ) :
    ((ConversationManager.generate_reply llm env cm t conf).llm_called = false →
      (ConversationManager.generate_reply llm env cm t conf).cm = cm) ∧
    (∀ rep, (ConversationManager.generate_reply llm env cm t conf).llm_called = true →
      generate_patient_reply llm (mkMessages env cm t conf) = some rep →
      (ConversationManager.generate_reply llm env cm t conf).reply = rep ∧
      (ConversationManager.generate_reply llm env cm t conf).cm.conversation_history =
        cm.conversation_history ++
          [{ role := "user", content := "Agent: " ++ t },
           { role := "assistant", content := rep }] ∧
      (ConversationManager.generate_reply llm env cm t conf).cm.turn_count = cm.turn_count + 1) ∧
    ((ConversationManager.generate_reply llm env cm t conf).llm_called = true →
      generate_patient_reply llm (mkMessages env cm t conf) = none →
      (ConversationManager.generate_reply llm env cm t conf).cm = cm ∧
      (ConversationManager.generate_reply llm env cm t conf).reply =
        "I'm sorry, could you repeat that?") := by
  unfold ConversationManager.generate_reply
  dsimp only
  split_ifs with hc1 hc2 hc3 hc4
  · exact ⟨fun _ => rfl, fun rep h => absurd h (by simp), fun h => absurd h (by simp)⟩
  · exact ⟨fun _ => rfl, fun rep h => absurd h (by simp), fun h => absurd h (by simp)⟩
  · exact ⟨fun _ => rfl, fun rep h => absurd h (by simp), fun h => absurd h (by simp)⟩
  · exact ⟨fun _ => rfl, fun rep h => absurd h (by simp), fun h => absurd h (by simp)⟩
  · rcases hgen : generate_patient_reply llm (mkMessages env cm t conf) with _ | rep0
    · refine ⟨fun h => absurd h (by simp), ?_, fun _ _ => ⟨rfl, rfl⟩⟩
      intro rep _ hsome
      exact absurd hsome (by simp)
    · refine ⟨fun h => absurd h (by simp), ?_, ?_⟩
      · intro rep _ hsome
        have hrep : rep0 = rep := by injection hsome
        subst hrep
        exact ⟨rfl, rfl, rfl⟩
      · intro _ hnone
        exact absurd hnone (by simp)

/-! ## Claim C10 -/

/-- Claim C10: the classifier consults only the first category (in the fixed
order appointment, refill, reschedule, cancel) whose name occurs in the goal
text — the evaluator's value is that category's indicator check alone — so
for the goal "cancel my appointment" (classified as appointment) and the
conversation "The clinic says it is cancelled." the evaluator returns false
even though "cancelled" is a completion indicator of the later matching
category cancel. -/
theorem claim10_first_category_only :
    (∀ (scn : Scenario) (text : String) (gt : String) (kws : List String),
        goal_keywords.find?
          (fun p => containsSubstr (strLower scn.patient_context.goal) p.1) = some (gt, kws) →
        _is_goal_completed scn text = kws.any (fun kw => containsSubstr (strLower text) kw)) ∧
    goal_keywords.find?
      (fun p => containsSubstr (strLower scn10.patient_context.goal) p.1) =
        some ("appointment", ["scheduled", "appointment is", "booked", "see you on", "confirmation"]) ∧
    ("cancel", ["cancelled", "canceled", "removed from"]) ∈ goal_keywords ∧
    containsSubstr (strLower "The clinic says it is cancelled.") "cancelled" = true ∧
    _is_goal_completed scn10 "The clinic says it is cancelled." = false := by
  refine ⟨?_, by decide, by decide, by decide, by decide⟩
  intro scn text gt kws hfind
  unfold _is_goal_completed
  dsimp only
  rw [goalLoop_eq_find, hfind]
